import Mathlib

set_option linter.unusedVariables false

/-!
Formal model of the campaign performance analysis engine of the
Meta-Ads-MCP_PixelPay repository (`src/core/analyzer.py`,
`src/tools/insights.py`, thresholds from `src/config/constants.py`).

Python floats are modelled as rationals (`ℚ`), Python ints as `ℤ`.
Python's `sorted`/`list.sort` (Timsort, stable) is modelled by
`List.insertionSort` with a reflexive total order on the sort key, which
is also a stable sort; a stable sort by a total preorder is uniquely
determined by its input, so the two agree.
-/

namespace MetaAds

/-! ### Thresholds (`ANALYSIS_THRESHOLDS` in `src/config/constants.py`) -/

def good_roas : ℚ := 3
def good_ctr : ℚ := 2
def high_cpc : ℚ := 2
def low_conversions : ℤ := 5

/-! ### Derived-metric functions (`src/tools/insights.py`)

Each Python function guards its divisor against zero and returns `0.0`
instead of raising.  The `except (TypeError, ZeroDivisionError)` clauses
are unreachable for numeric inputs, which is what the typed model has. -/

def calculate_roas (spend conversion_value : ℚ) : ℚ :=
  if spend = 0 then 0 else conversion_value / spend

def calculate_ctr (clicks impressions : ℤ) : ℚ :=
  if impressions = 0 then 0 else (clicks : ℚ) / (impressions : ℚ)

def calculate_cpc (spend : ℚ) (clicks : ℤ) : ℚ :=
  if clicks = 0 then 0 else spend / (clicks : ℚ)

def calculate_cpm (spend : ℚ) (impressions : ℤ) : ℚ :=
  if impressions = 0 then 0 else (spend / (impressions : ℚ)) * 1000

/-! ### Performance score (`CampaignAnalyzer._calculate_performance_score`) -/

def calculate_performance_score (spend roas ctr : ℚ) (conversions : ℤ) : ℚ :=
  let score : ℚ := 50
  let score := score +
    (if roas ≥ good_roas then 40
     else if roas ≥ 2 then 25
     else if roas ≥ 1 then 10
     else if roas > 0 then 5
     else 0)
  let score := score +
    (if ctr ≥ good_ctr / 100 then 30
     else if ctr ≥ 1 / 100 then 20
     else if ctr ≥ 0.5 / 100 then 10
     else 0)
  let score := score +
    (if conversions ≥ 50 then 20
     else if conversions ≥ 20 then 15
     else if conversions ≥ 10 then 10
     else if conversions ≥ 5 then 5
     else 0)
  let score := score +
    (if spend > 0 ∧ conversions > 0 then
       let cost_per_conversion := spend / (conversions : ℚ)
       if cost_per_conversion ≤ 20 then 10
       else if cost_per_conversion ≤ 50 then 5
       else 0
     else 0)
  min score 100

/-! Spec-side restatement of the score, following the wording of the claim:
`min (50 + R + C + V + E) 100` with the four bucket functions. -/

def roasBucketR (roas : ℚ) : ℚ :=
  if roas ≥ 3 then 40 else if roas ≥ 2 then 25 else if roas ≥ 1 then 10
  else if roas > 0 then 5 else 0

def ctrBucketC (ctr : ℚ) : ℚ :=
  if ctr ≥ 0.02 then 30 else if ctr ≥ 0.01 then 20 else if ctr ≥ 0.005 then 10 else 0

def convBucketV (conversions : ℤ) : ℚ :=
  if conversions ≥ 50 then 20 else if conversions ≥ 20 then 15
  else if conversions ≥ 10 then 10 else if conversions ≥ 5 then 5 else 0

def effBucketE (spend : ℚ) (conversions : ℤ) : ℚ :=
  if spend > 0 ∧ conversions > 0 then
    if spend / (conversions : ℚ) ≤ 20 then 10
    else if spend / (conversions : ℚ) ≤ 50 then 5 else 0
  else 0

def performance_score_spec (spend roas ctr : ℚ) (conversions : ℤ) : ℚ :=
  min (50 + roasBucketR roas + ctrBucketC ctr + convBucketV conversions
        + effBucketE spend conversions) 100

/-! ### Issue detection (`CampaignAnalyzer._identify_campaign_issues`) -/

def identify_campaign_issues (spend roas ctr cpc : ℚ)
    (conversions days_running : ℤ) : List String :=
  (if roas < 1 ∧ spend > 50 then ["Negative ROI - spending more than earning"] else []) ++
  (if ctr < 0.5 / 100 ∧ spend > 25 then ["Very low click-through rate"] else []) ++
  (if cpc > high_cpc ∧ spend > 100 then ["High cost per click"] else []) ++
  (if conversions < low_conversions ∧ days_running > 7 then ["Low conversion volume"] else []) ++
  (if spend = 0 then ["No spend detected - campaign may not be delivering"] else [])

/-! ### Recommendations (`CampaignAnalyzer._generate_campaign_recommendations`)

The Python code tests `"Negative ROI" in issues` where `issues` is a
`List[str]`, so this is exact list membership of the short string
`"Negative ROI"`, not a substring test; the detector appends the longer
string `"Negative ROI - spending more than earning"`.  The model keeps
this behaviour exactly as written. -/

def generate_campaign_recommendations (spend roas ctr cpc : ℚ)
    (conversions : ℤ) (issues : List String) : List String :=
  let recommendations : List String :=
    (if "Negative ROI" ∈ issues then
       ["Consider pausing campaign - negative return on investment",
        "Review targeting and creative to improve performance"] else []) ++
    (if "Very low click-through rate" ∈ issues then
       ["Test different ad creative or copy",
        "Review audience targeting for relevance"] else []) ++
    (if "High cost per click" ∈ issues then
       ["Consider bid strategy adjustments",
        "Review audience size and competition"] else []) ++
    (if "Low conversion volume" ∈ issues then
       ["Review landing page experience",
        "Test different call-to-action buttons"] else [])
  let recommendations := recommendations ++
    (if recommendations = [] ∧ roas > good_roas then
       ["Campaign performing well - consider increasing budget"] else [])
  let recommendations := recommendations ++
    (if recommendations = [] ∧ ctr > good_ctr / 100 then
       ["Good engagement - test audience expansion"] else [])
  recommendations

/-! ### Days running (`CampaignAnalyzer._analyze_single_campaign`, lines 215-224)

`created_days_ago` models `(datetime.now() - created).days` for a
`created_time` that is present and parses; `none` models a missing or
unparsable `created_time` (the `except` clause keeps the default 30).
The code ignores the requested `time_range` here: the default is the
hard-coded 30 and the cap is the hard-coded 30. -/

def days_running (time_range : String) (created_days_ago : Option ℤ) : ℤ :=
  match created_days_ago with
  | none => 30
  | some d => min d 30

end MetaAds

/-! ### Stable sorting by a key

Python's `sorted(xs, key=k)` / `sorted(xs, key=k, reverse=True)` is a
stable sort; `List.insertionSort` with the reflexive total relation
`keyLE` / `keyGE` below is also stable, and a stable sort by a total
preorder is unique, so it models Python exactly. -/

section StableSort

variable {α : Type} {β : Type} [LinearOrder β]

def keyLE (key : α → β) : α → α → Prop := fun a b => key a ≤ key b

def keyGE (key : α → β) : α → α → Prop := fun a b => key b ≤ key a

instance (key : α → β) : DecidableRel (keyLE key) :=
  fun a b => inferInstanceAs (Decidable (key a ≤ key b))

instance (key : α → β) : DecidableRel (keyGE key) :=
  fun a b => inferInstanceAs (Decidable (key b ≤ key a))

instance (key : α → β) : IsTotal α (keyLE key) :=
  ⟨fun a b => le_total (key a) (key b)⟩

instance (key : α → β) : IsTotal α (keyGE key) :=
  ⟨fun a b => le_total (key b) (key a)⟩

instance (key : α → β) : IsTrans α (keyLE key) :=
  ⟨fun _ _ _ h1 h2 => le_trans h1 h2⟩

instance (key : α → β) : IsTrans α (keyGE key) :=
  ⟨fun _ _ _ h1 h2 => le_trans h2 h1⟩

/-- Stability of `orderedInsert`, filter form: inserting `a` does not
reshuffle the elements satisfying `p`, provided `a` is never placed after
an element that shares `p` with it. -/
theorem filter_orderedInsert_of (r : α → α → Prop) [DecidableRel r]
    (p : α → Prop) [DecidablePred p] (a : α)
    (hr : ∀ b, ¬ r a b → ¬(p a ∧ p b)) :
    ∀ L : List α, (L.orderedInsert r a).filter (fun x => decide (p x)) =
      (if p a then [a] else []) ++ L.filter (fun x => decide (p x)) := by
  intro L
  induction L with
  | nil =>
    simp only [List.orderedInsert, List.filter]
    by_cases hpa : p a <;> simp_all
  | cons b L ih =>
    rw [List.orderedInsert]
    by_cases hrb : r a b
    · rw [if_pos hrb]
      by_cases hpa : p a <;> by_cases hpb : p b <;>
        simp_all [List.filter_cons]
    · rw [if_neg hrb]
      have hnb := hr b hrb
      rw [List.filter_cons, ih, List.filter_cons]
      by_cases hpa : p a <;> by_cases hpb : p b <;> simp_all

/-- Stability of `insertionSort`, filter form. -/
theorem filter_insertionSort_of (r : α → α → Prop) [DecidableRel r]
    (p : α → Prop) [DecidablePred p]
    (hr : ∀ a b, ¬ r a b → ¬(p a ∧ p b)) :
    ∀ l : List α, (l.insertionSort r).filter (fun x => decide (p x)) =
      l.filter (fun x => decide (p x)) := by
  intro l
  induction l with
  | nil => rfl
  | cons a l ih =>
    rw [List.insertionSort, filter_orderedInsert_of r p a (hr a), ih,
      List.filter_cons]
    by_cases hpa : p a <;> simp_all

end StableSort

namespace MetaAds

/-! ### Per-campaign analysis record (`CampaignAnalysis` dataclass) -/

structure CampaignAnalysis where
  campaign_id : String
  campaign_name : String
  spend : ℚ
  impressions : ℤ
  clicks : ℤ
  conversions : ℤ
  conversion_value : ℚ
  ctr : ℚ
  cpc : ℚ
  cpm : ℚ
  roas : ℚ
  status : String
  days_running : ℤ
  performance_score : ℚ
  issues : List String
  recommendations : List String
deriving DecidableEq

def scoreKey (a : CampaignAnalysis) : ℚ := a.performance_score

/-- `sorted(campaign_analyses, key=lambda x: x.performance_score, reverse=True)` -/
def sort_by_score_desc (l : List CampaignAnalysis) : List CampaignAnalysis :=
  l.insertionSort (keyGE scoreKey)

/-- `sorted(campaign_analyses, key=lambda x: x.performance_score)` -/
def sort_by_score_asc (l : List CampaignAnalysis) : List CampaignAnalysis :=
  l.insertionSort (keyLE scoreKey)

def top_performers (l : List CampaignAnalysis) : List CampaignAnalysis :=
  (sort_by_score_desc l).take 3

def underperformers (l : List CampaignAnalysis) : List CampaignAnalysis :=
  (sort_by_score_asc l).take 3

/-! ### Account health (`CampaignAnalyzer._determine_account_health`) -/

def determine_account_health (average_roas : ℚ)
    (analyses : List CampaignAnalysis) : String :=
  if average_roas ≥ good_roas then "Excellent"
  else if average_roas ≥ 2 then "Good"
  else if average_roas ≥ 1 then "Fair"
  else "Needs Attention"

/-- Modelled from the spec: the order `Needs Attention < Fair < Good <
Excellent` on health strings, as a numeric rank. -/
def healthRank (h : String) : ℕ :=
  if h = "Needs Attention" then 0
  else if h = "Fair" then 1
  else if h = "Good" then 2
  else 3

/-! ### Action items (`CampaignAnalyzer._generate_action_items`)

The `reason` strings interpolate numbers with Python's `:.2f` float
formatting; the model renders the exact rational with `toString`
instead (floating-point decimal rendering is presentation only and is
inspected by no rule).  Fields of `ActionItem` are, in order:
priority, action, campaign_id, campaign_name, reason. -/

structure ActionItem where
  priority : String
  action : String
  campaign_id : String
  campaign_name : String
  reason : String
deriving DecidableEq

/-- First pass of `_generate_action_items`: high priority. -/
def high_priority_item (a : CampaignAnalysis) : Option ActionItem :=
  if a.roas < 1 ∧ a.spend > 100 then
    some ⟨"high", "pause_campaign", a.campaign_id, a.campaign_name,
      "Negative ROI (" ++ toString a.roas ++ "x) after significant spend ($"
        ++ toString a.spend ++ ")"⟩
  else none

/-- Second pass of `_generate_action_items`: medium priority. -/
def medium_priority_item (a : CampaignAnalysis) : Option ActionItem :=
  if a.ctr < 0.5 / 100 ∧ a.spend > 50 then
    some ⟨"medium", "review_creative", a.campaign_id, a.campaign_name,
      "Very low CTR (" ++ toString (a.ctr * 100) ++ "%) despite spend"⟩
  else none

/-- Third pass of `_generate_action_items`: low priority. -/
def low_priority_item (a : CampaignAnalysis) : Option ActionItem :=
  if a.roas > good_roas ∧ a.performance_score > 80 then
    some ⟨"low", "increase_budget", a.campaign_id, a.campaign_name,
      "High-performing campaign (ROAS: " ++ toString a.roas ++ "x, Score: "
        ++ toString a.performance_score ++ ")"⟩
  else none

/-- `priority_order = {"high": 0, "medium": 1, "low": 2}` with
`.get(priority, 2)`. -/
def priority_rank (x : ActionItem) : ℕ :=
  if x.priority = "high" then 0
  else if x.priority = "medium" then 1
  else if x.priority = "low" then 2
  else 2

def generate_action_items (analyses : List CampaignAnalysis) : List ActionItem :=
  let action_items :=
    analyses.filterMap high_priority_item ++
    analyses.filterMap medium_priority_item ++
    analyses.filterMap low_priority_item
  action_items.insertionSort (keyLE priority_rank)

/-! ### Account recommendations (`_generate_account_recommendations`) -/

def roasKey (a : CampaignAnalysis) : ℚ := a.roas

def generate_account_recommendations (analyses : List CampaignAnalysis) :
    List String :=
  let negative_roi := analyses.filter (fun a => decide (a.roas < 1 ∧ a.spend > 50))
  let recs1 : List String :=
    if negative_roi ≠ [] then
      ["Pause " ++ toString negative_roi.length ++
        " underperforming campaigns with negative ROI"]
    else []
  let by_roas_top2 := (analyses.insertionSort (keyGE roasKey)).take 2
  let recs2 : List String :=
    match by_roas_top2 with
    | [] => []
    | t :: _ =>
      if t.roas > good_roas then
        ["Increase budget for top performer: " ++ t.campaign_name]
      else []
  let low_ctr := analyses.filter (fun a => decide (a.ctr < 0.5 / 100 ∧ a.spend > 25))
  let recs3 : List String :=
    if low_ctr ≠ [] then
      ["Review creative for " ++ toString low_ctr.length ++
        " campaigns with very low CTR"]
    else []
  let recommendations := recs1 ++ recs2 ++ recs3
  if recommendations = [] then
    ["Account performing well - consider testing new campaigns"]
  else recommendations

/-! ### Account analysis record (`AccountAnalysis` dataclass) -/

structure AccountAnalysis where
  total_spend : ℚ
  total_conversions : ℤ
  average_roas : ℚ
  account_health : String
  top_performers : List CampaignAnalysis
  underperformers : List CampaignAnalysis
  recommendations : List String
  action_items : List ActionItem
deriving DecidableEq

/-! ### Input model for the account pipeline

`_analyze_single_campaign` consumes a campaign dict and the result of
`get_insights(campaign_id, time_range)`.  A numeric field of an insight
record is read as `float(data.get(k, 0) or 0)` (resp. `int(...)`):
a missing key or a falsy value coalesces to `0`, a present numeric
value parses, and a present non-numeric value raises, which the
enclosing `try` turns into a skipped campaign.  `FieldVal` models these
four cases. -/

inductive FieldVal (α : Type) where
  | missing
  | falsy
  | num (a : α)
  | malformed
deriving DecidableEq

def parseField {α : Type} (zeroVal : α) : FieldVal α → Option α
  | .missing => some zeroVal
  | .falsy => some zeroVal
  | .num a => some a
  | .malformed => none

/-- One dated insight record, fields in the order read by the code:
spend, impressions, clicks, conversions, conversion_value. -/
structure RawData where
  spend : FieldVal ℚ
  impressions : FieldVal ℤ
  clicks : FieldVal ℤ
  conversions : FieldVal ℤ
  conversion_value : FieldVal ℚ
deriving DecidableEq

/-- The result of `get_insights(campaign_id, time_range)`: a success flag
and a date-keyed mapping of insight records (association list with
last-entry-wins lookup, like a Python dict built by insertion). -/
structure InsightsResponse where
  success : Bool
  insights : List (String × RawData)
deriving DecidableEq

/-- A campaign dict together with the insights the provider returns for
it.  `id`, `name`, `status` are `none` when the key is absent;
`created_days_ago` is `some d` when `created_time` is present and parses
with `(datetime.now() - created).days = d`, `none` when it is missing or
unparsable (both leave the default `days_running`). -/
structure Campaign where
  id : Option String
  name : Option String
  status : Option String
  created_days_ago : Option ℤ
  insights_response : InsightsResponse
deriving DecidableEq

/-- `max(insights.keys())`: lexicographically greatest date key, `none`
on an empty dict (the code guards with `if insights else None`). -/
def maxKey : List (String × RawData) → Option String
  | [] => none
  | (k, _) :: rest =>
    match maxKey rest with
    | none => some k
    | some m => some (if m ≤ k then k else m)

/-- `insights[latest_date]` with dict semantics (last write wins). -/
def dictLookup (l : List (String × RawData)) (k : String) : Option RawData :=
  (l.reverse.find? (fun kv => kv.1 == k)).map (fun kv => kv.2)

/-- Lines 203-207 of `_analyze_single_campaign`: parse the five numeric
fields; any `float()`/`int()` failure raises and the campaign is
skipped. -/
def parseRawData (d : RawData) : Option (ℚ × ℤ × ℤ × ℤ × ℚ) := do
  let spend ← parseField 0 d.spend
  let impressions ← parseField 0 d.impressions
  let clicks ← parseField 0 d.clicks
  let conversions ← parseField 0 d.conversions
  let conversion_value ← parseField 0 d.conversion_value
  pure (spend, impressions, clicks, conversions, conversion_value)

/-- `CampaignAnalyzer._analyze_single_campaign`; `none` models every
`return None` path and the `except` handler. -/
def analyze_single_campaign (c : Campaign) (time_range : String) :
    Option CampaignAnalysis :=
  match c.id with
  | none => none
  | some campaign_id =>
    if campaign_id = "" then none
    else if ¬ c.insights_response.success then none
    else
      match maxKey c.insights_response.insights with
      | none => none
      | some latest_date =>
        if latest_date = "" then none
        else
          match dictLookup c.insights_response.insights latest_date with
          | none => none
          | some data =>
            match parseRawData data with
            | none => none
            | some (spend, impressions, clicks, conversions, conversion_value) =>
              let ctr := calculate_ctr clicks impressions
              let cpc := calculate_cpc spend clicks
              let cpm := calculate_cpm spend impressions
              let roas := calculate_roas spend conversion_value
              let days := days_running time_range c.created_days_ago
              let performance_score :=
                calculate_performance_score spend roas ctr conversions
              let issues :=
                identify_campaign_issues spend roas ctr cpc conversions days
              let recommendations :=
                generate_campaign_recommendations spend roas ctr cpc conversions issues
              some ⟨campaign_id, c.name.getD "Unknown", spend, impressions,
                clicks, conversions, conversion_value, ctr, cpc, cpm, roas,
                c.status.getD "UNKNOWN", days, performance_score, issues,
                recommendations⟩

/-- The result of `get_campaigns(account_id, status="ACTIVE")`. -/
structure CampaignsResponse where
  success : Bool
  campaigns : List Campaign
deriving DecidableEq

/-- The shape of the dictionary `analyze_account_campaigns` returns:
`fetchFailure` is the `success: False` branch, `emptyCampaigns` and
`noUsableData` are the two `account_health: "No Data"` messages, and
`report` carries the `AccountAnalysis` that gets formatted. -/
inductive AnalyzeResult where
  | fetchFailure
  | emptyCampaigns
  | noUsableData
  | report (a : AccountAnalysis)
deriving DecidableEq

/-- The accumulation loop of `analyze_account_campaigns` (lines 112-117):
each campaign is analyzed and appended when the analysis is not `None`. -/
def collected_analyses (resp : CampaignsResponse) (time_range : String) :
    List CampaignAnalysis :=
  resp.campaigns.filterMap (fun c => analyze_single_campaign c time_range)

/-- The `AccountAnalysis` value built after the loop: the totals are the
loop's running sums over the collected analyses, `average_roas` their
mean. -/
def build_account_analysis (campaign_analyses : List CampaignAnalysis) :
    AccountAnalysis :=
  ⟨(campaign_analyses.map (fun a => a.spend)).sum,
   (campaign_analyses.map (fun a => a.conversions)).sum,
   (campaign_analyses.map (fun a => a.roas)).sum / (campaign_analyses.length : ℚ),
   determine_account_health
     ((campaign_analyses.map (fun a => a.roas)).sum / (campaign_analyses.length : ℚ))
     campaign_analyses,
   top_performers campaign_analyses,
   underperformers campaign_analyses,
   generate_account_recommendations campaign_analyses,
   generate_action_items campaign_analyses⟩

/-- `CampaignAnalyzer.analyze_account_campaigns`, with the two network
fetches supplied as input data. -/
def analyze_account_campaigns (resp : CampaignsResponse)
    (time_range : String) : AnalyzeResult :=
  if ¬ resp.success then .fetchFailure
  else if resp.campaigns = [] then .emptyCampaigns
  else if collected_analyses resp time_range = [] then .noUsableData
  else .report (build_account_analysis (collected_analyses resp time_range))

def resultSuccess : AnalyzeResult → Bool
  | .fetchFailure => false
  | _ => true

def resultHealth : AnalyzeResult → Option String
  | .fetchFailure => none
  | .emptyCampaigns => some "No Data"
  | .noUsableData => some "No Data"
  | .report a => some a.account_health

/-! ## Theorems -/

/-! ### Helper lemmas for the performance score -/

theorem roasBucketR_nonneg (roas : ℚ) : 0 ≤ roasBucketR roas := by
  unfold roasBucketR; split_ifs <;> norm_num

theorem ctrBucketC_nonneg (ctr : ℚ) : 0 ≤ ctrBucketC ctr := by
  unfold ctrBucketC; split_ifs <;> norm_num

theorem convBucketV_nonneg (conversions : ℤ) : 0 ≤ convBucketV conversions := by
  unfold convBucketV; split_ifs <;> norm_num

theorem effBucketE_nonneg (spend : ℚ) (conversions : ℤ) :
    0 ≤ effBucketE spend conversions := by
  unfold effBucketE; split_ifs <;> norm_num

theorem calculate_performance_score_eq (spend roas ctr : ℚ) (conversions : ℤ) :
    calculate_performance_score spend roas ctr conversions =
      performance_score_spec spend roas ctr conversions := by
  unfold calculate_performance_score performance_score_spec roasBucketR
    ctrBucketC convBucketV effBucketE good_roas good_ctr
  norm_num [add_assoc]

/-- C2: the performance score is `min (50 + R + C + V + E) 100` with the
four bucket functions exactly as the spec states them, and hence always
lies in `[50, 100]`. -/
theorem C2_performance_score_formula_and_bounds
    (spend roas ctr : ℚ) (conversions : ℤ) :
    calculate_performance_score spend roas ctr conversions =
      performance_score_spec spend roas ctr conversions ∧
    50 ≤ calculate_performance_score spend roas ctr conversions ∧
    calculate_performance_score spend roas ctr conversions ≤ 100 := by
  have heq := calculate_performance_score_eq spend roas ctr conversions
  refine ⟨heq, ?_, ?_⟩
  · rw [heq]
    unfold performance_score_spec
    have h1 := roasBucketR_nonneg roas
    have h2 := ctrBucketC_nonneg ctr
    have h3 := convBucketV_nonneg conversions
    have h4 := effBucketE_nonneg spend conversions
    exact le_min (by linarith) (by norm_num)
  · rw [heq]
    exact min_le_right _ _

/-- C3: every derived-metric function returns `0` when its denominator is
zero (`roas` even for a positive `conversion_value`); no division by zero
occurs. -/
theorem C3_zero_denominator_guards (clicks : ℤ)
    (spend conversion_value : ℚ) :
    calculate_ctr clicks 0 = 0 ∧
    calculate_cpc spend 0 = 0 ∧
    calculate_cpm spend 0 = 0 ∧
    calculate_roas 0 conversion_value = 0 ∧
    (0 < conversion_value → calculate_roas 0 conversion_value = 0) := by
  refine ⟨?_, ?_, ?_, ?_, fun _ => ?_⟩ <;>
    simp [calculate_ctr, calculate_cpc, calculate_cpm, calculate_roas]

/-- Witness for C3 at `clicks = 7`, `spend = 12`, `conversion_value = 5 > 0`. -/
theorem C3_zero_denominator_guards_witness :
    (0:ℚ) < 5 ∧ calculate_roas 0 5 = 0 :=
  ⟨by norm_num, (C3_zero_denominator_guards 7 12 5).2.2.2.2 (by norm_num)⟩

/-- C1: at the spec's scenario (`spend=200`, `impressions=0`, `clicks=0`,
`conversions=0`, `conversion_value=0`, hence `roas=ctr=cpc=0`,
`days_running=30`) the negative-ROI issue is detected and the score is
50, but the pause recommendation is NOT generated: the code tests list
membership of the exact string `"Negative ROI"` while the detector
appends `"Negative ROI - spending more than earning"`, so the mapping
for `negative_roi` never fires. -/
theorem C1_negative_roi_pause_recommendation_missing :
    "Negative ROI - spending more than earning" ∈
      identify_campaign_issues 200 0 0 0 0 30 ∧
    calculate_performance_score 200 0 0 0 = 50 ∧
    "Consider pausing campaign - negative return on investment" ∉
      generate_campaign_recommendations 200 0 0 0 0
        (identify_campaign_issues 200 0 0 0 0 30) := by
  refine ⟨?_, ?_, ?_⟩
  · norm_num [identify_campaign_issues, low_conversions, high_cpc]
  · norm_num [calculate_performance_score, good_roas, good_ctr]
  · norm_num [generate_campaign_recommendations, identify_campaign_issues,
      low_conversions, high_cpc, good_roas, good_ctr]
    simp

/-- C4 counterexample: for `time_range = "last_7d"` and a campaign
created 100 days ago, `days_running = 30`, which exceeds the requested
window's upper bound of 7. -/
theorem C4_counterexample_last_7d :
    days_running "last_7d" (some 100) = 30 ∧
    ¬(days_running "last_7d" (some 100) ≤ 7) := by
  constructor <;> norm_num [days_running]

/-- C4 amended: `days_running` is capped at the hard-coded 30 (the bound
of the default `last_30d` window) for every time-range token and every
`created_time`; it is not capped at the per-window bound. -/
theorem C4_days_running_capped_at_30 (time_range : String)
    (created_days_ago : Option ℤ) :
    days_running time_range created_days_ago ≤ 30 := by
  cases created_days_ago with
  | none => simp [days_running]
  | some d => simp [days_running]

/-- C7: `spend = 0` always yields the no-spend issue, and the no-spend
issue never co-occurs with the negative-ROI issue (which requires
`spend > 50`). -/
theorem C7_no_spend_exclusive_of_negative_roi
    (spend roas ctr cpc : ℚ) (conversions days : ℤ) :
    (spend = 0 →
      "No spend detected - campaign may not be delivering" ∈
        identify_campaign_issues spend roas ctr cpc conversions days) ∧
    ¬("No spend detected - campaign may not be delivering" ∈
        identify_campaign_issues spend roas ctr cpc conversions days ∧
      "Negative ROI - spending more than earning" ∈
        identify_campaign_issues spend roas ctr cpc conversions days) := by
  constructor
  · intro hs
    subst hs
    simp [identify_campaign_issues]
  · rintro ⟨hns, hnr⟩
    unfold identify_campaign_issues at hns hnr
    split_ifs at hns hnr with h1 h2 h3 h4 h5 <;> simp_all <;> linarith

/-- Witness for C7 at `spend = 0`, all other inputs zero except
`days = 30`. -/
theorem C7_no_spend_exclusive_of_negative_roi_witness :
    "No spend detected - campaign may not be delivering" ∈
      identify_campaign_issues 0 0 0 0 0 30 ∧
    ¬("No spend detected - campaign may not be delivering" ∈
        identify_campaign_issues 0 0 0 0 0 30 ∧
      "Negative ROI - spending more than earning" ∈
        identify_campaign_issues 0 0 0 0 0 30) :=
  ⟨(C7_no_spend_exclusive_of_negative_roi 0 0 0 0 0 30).1 rfl,
   (C7_no_spend_exclusive_of_negative_roi 0 0 0 0 0 30).2⟩

/-- C8: account health follows the stated ROAS thresholds, and under the
rank `Needs Attention < Fair < Good < Excellent` it is monotone
non-decreasing in `average_roas`. -/
theorem C8_account_health_thresholds_monotone (r1 r2 : ℚ)
    (xs ys : List MetaAds.CampaignAnalysis) :
    (r1 ≥ 3 → determine_account_health r1 xs = "Excellent") ∧
    (2 ≤ r1 → r1 < 3 → determine_account_health r1 xs = "Good") ∧
    (1 ≤ r1 → r1 < 2 → determine_account_health r1 xs = "Fair") ∧
    (r1 < 1 → determine_account_health r1 xs = "Needs Attention") ∧
    (r1 ≤ r2 →
      healthRank (determine_account_health r1 xs) ≤
        healthRank (determine_account_health r2 ys)) := by
  unfold determine_account_health good_roas
  refine ⟨?_, ?_, ?_, ?_, ?_⟩ <;> intros <;> split_ifs <;>
    first | rfl | decide | linarith

/-- Witness for C8: each threshold bucket and the monotonicity at
`r1 = 1/2 ≤ 3 = r2`. -/
theorem C8_account_health_thresholds_monotone_witness :
    determine_account_health 3 [] = "Excellent" ∧
    determine_account_health (5/2) [] = "Good" ∧
    determine_account_health (3/2) [] = "Fair" ∧
    determine_account_health (1/2) [] = "Needs Attention" ∧
    healthRank (determine_account_health (1/2) []) ≤
      healthRank (determine_account_health 3 []) :=
  ⟨(C8_account_health_thresholds_monotone 3 3 [] []).1 (by norm_num),
   (C8_account_health_thresholds_monotone (5/2) 3 [] []).2.1 (by norm_num) (by norm_num),
   (C8_account_health_thresholds_monotone (3/2) 3 [] []).2.2.1 (by norm_num) (by norm_num),
   (C8_account_health_thresholds_monotone (1/2) 3 [] []).2.2.2.1 (by norm_num),
   (C8_account_health_thresholds_monotone (1/2) 3 [] []).2.2.2.2 (by norm_num)⟩

/-- C10: account health depends only on `average_roas`; the list of
per-campaign analyses has no influence on it. -/
theorem C10_health_ignores_campaign_analyses (r : ℚ)
    (xs ys : List MetaAds.CampaignAnalysis) :
    determine_account_health r xs = determine_account_health r ys := rfl

/-! ### Top/under performers (C5) -/

/-- A campaign analysis with a given id and performance score, all other
fields fixed; field order as in `CampaignAnalysis`. -/
def mkScoredCampaign (i : String) (s : ℚ) : CampaignAnalysis :=
  ⟨i, "campaign", 0, 0, 0, 0, 0, 0, 0, 0, 0, "ACTIVE", 30, s, [], []⟩

/-- The spec's five-campaign example with scores `[10,20,30,40,50]`. -/
def exampleCampaigns : List CampaignAnalysis :=
  [mkScoredCampaign "c1" 10, mkScoredCampaign "c2" 20, mkScoredCampaign "c3" 30,
   mkScoredCampaign "c4" 40, mkScoredCampaign "c5" 50]

/-- C5: `top_performers` (resp. `underperformers`) is the 3-prefix of a
stable descending (resp. ascending) sort by `performance_score`: the
sorted list is a permutation of the input, is sorted, and preserves the
input order of equal-score elements (filter form of stability); the two
selections are independent, and on the `[10,20,30,40,50]` example the
top scores are `[50,40,30]`, the bottom scores `[10,20,30]`, with the
score-30 campaign appearing in both lists. -/
theorem C5_top_and_under_performers :
    (∀ xs : List CampaignAnalysis,
      List.Perm (sort_by_score_desc xs) xs ∧
      (sort_by_score_desc xs).Sorted (keyGE scoreKey) ∧
      (∀ s : ℚ, (sort_by_score_desc xs).filter (fun x => decide (scoreKey x = s)) =
        xs.filter (fun x => decide (scoreKey x = s))) ∧
      top_performers xs = (sort_by_score_desc xs).take 3 ∧
      List.Perm (sort_by_score_asc xs) xs ∧
      (sort_by_score_asc xs).Sorted (keyLE scoreKey) ∧
      (∀ s : ℚ, (sort_by_score_asc xs).filter (fun x => decide (scoreKey x = s)) =
        xs.filter (fun x => decide (scoreKey x = s))) ∧
      underperformers xs = (sort_by_score_asc xs).take 3) ∧
    (top_performers exampleCampaigns).map scoreKey = [50, 40, 30] ∧
    (underperformers exampleCampaigns).map scoreKey = [10, 20, 30] ∧
    mkScoredCampaign "c3" 30 ∈ top_performers exampleCampaigns ∧
    mkScoredCampaign "c3" 30 ∈ underperformers exampleCampaigns := by
  constructor
  · intro xs
    refine ⟨List.perm_insertionSort _ xs, List.sorted_insertionSort _ xs, ?_,
      rfl, List.perm_insertionSort _ xs, List.sorted_insertionSort _ xs, ?_, rfl⟩
    · intro s
      exact filter_insertionSort_of (keyGE scoreKey) (fun x => scoreKey x = s)
        (fun a b hn hab => hn (by unfold keyGE; rw [hab.1, hab.2])) xs
    · intro s
      exact filter_insertionSort_of (keyLE scoreKey) (fun x => scoreKey x = s)
        (fun a b hn hab => hn (by unfold keyLE; rw [hab.1, hab.2])) xs
  · refine ⟨?_, ?_, ?_, ?_⟩ <;> decide

/-! ### Action items (C6) -/

theorem high_priority_item_priority {a : CampaignAnalysis} {x : ActionItem}
    (h : high_priority_item a = some x) : x.priority = "high" := by
  unfold high_priority_item at h
  split_ifs at h
  cases Option.some.inj h; rfl

theorem medium_priority_item_priority {a : CampaignAnalysis} {x : ActionItem}
    (h : medium_priority_item a = some x) : x.priority = "medium" := by
  unfold medium_priority_item at h
  split_ifs at h
  cases Option.some.inj h; rfl

theorem low_priority_item_priority {a : CampaignAnalysis} {x : ActionItem}
    (h : low_priority_item a = some x) : x.priority = "low" := by
  unfold low_priority_item at h
  split_ifs at h
  cases Option.some.inj h; rfl

theorem rank_of_mem_high {xs : List CampaignAnalysis} {x : ActionItem}
    (hx : x ∈ xs.filterMap high_priority_item) : priority_rank x = 0 := by
  obtain ⟨a, _, ha⟩ := List.mem_filterMap.1 hx
  simp [priority_rank, high_priority_item_priority ha]

theorem rank_of_mem_medium {xs : List CampaignAnalysis} {x : ActionItem}
    (hx : x ∈ xs.filterMap medium_priority_item) : priority_rank x = 1 := by
  obtain ⟨a, _, ha⟩ := List.mem_filterMap.1 hx
  simp [priority_rank, medium_priority_item_priority ha]

theorem rank_of_mem_low {xs : List CampaignAnalysis} {x : ActionItem}
    (hx : x ∈ xs.filterMap low_priority_item) : priority_rank x = 2 := by
  obtain ⟨a, _, ha⟩ := List.mem_filterMap.1 hx
  simp [priority_rank, low_priority_item_priority ha]

/-- The concatenation of the three generation passes is already in
priority order, so the final stable sort leaves it unchanged. -/
theorem generated_items_sorted (xs : List CampaignAnalysis) :
    (xs.filterMap high_priority_item ++ xs.filterMap medium_priority_item ++
      xs.filterMap low_priority_item).Pairwise (keyLE priority_rank) := by
  refine List.pairwise_append.2 ⟨List.pairwise_append.2 ⟨?_, ?_, ?_⟩, ?_, ?_⟩
  · exact List.pairwise_of_forall_mem_list fun a ha b hb => by
      unfold keyLE; rw [rank_of_mem_high ha, rank_of_mem_high hb]
  · exact List.pairwise_of_forall_mem_list fun a ha b hb => by
      unfold keyLE; rw [rank_of_mem_medium ha, rank_of_mem_medium hb]
  · intro a ha b hb
    unfold keyLE
    rw [rank_of_mem_high ha, rank_of_mem_medium hb]
    norm_num
  · exact List.pairwise_of_forall_mem_list fun a ha b hb => by
      unfold keyLE; rw [rank_of_mem_low ha, rank_of_mem_low hb]
  · intro a ha b hb
    unfold keyLE
    rw [rank_of_mem_low hb]
    rcases List.mem_append.1 ha with h | h
    · rw [rank_of_mem_high h]; norm_num
    · rw [rank_of_mem_medium h]; norm_num

/-- A concrete high-priority action item, for the ordering scenario. -/
def exHighItem : ActionItem :=
  ⟨"high", "pause_campaign", "hc", "High campaign", "reason-h"⟩

/-- A concrete low-priority action item, for the ordering scenario. -/
def exLowItem : ActionItem :=
  ⟨"low", "increase_budget", "lc", "Low campaign", "reason-l"⟩

/-- C6: the action-item list is exactly the concatenation of the three
per-campaign rule passes (high, then medium, then low, each preserving
campaign order), the result is ordered by priority rank, and the stable
sort flips a generation order `[low, high]` into `[high, low]`. -/
theorem C6_action_items_rules_and_order :
    (∀ xs : List CampaignAnalysis,
      generate_action_items xs =
        xs.filterMap high_priority_item ++ xs.filterMap medium_priority_item ++
          xs.filterMap low_priority_item ∧
      (generate_action_items xs).Pairwise (keyLE priority_rank)) ∧
    List.insertionSort (keyLE priority_rank) [exLowItem, exHighItem] =
      [exHighItem, exLowItem] := by
  refine ⟨fun xs => ⟨?_, ?_⟩, ?_⟩
  · show (xs.filterMap high_priority_item ++ xs.filterMap medium_priority_item ++
      xs.filterMap low_priority_item).insertionSort (keyLE priority_rank) = _
    exact List.Sorted.insertionSort_eq (generated_items_sorted xs)
  · exact List.sorted_insertionSort _ _
  · decide

/-! ### Failure isolation at the campaign boundary (C9) -/

/-- C9: a campaign with a missing id, a failed or empty insights fetch,
or unparsable insight data is skipped (`analyze_single_campaign` returns
`none`) and contributes nothing; the account analysis still succeeds
whenever the campaign fetch succeeded, the totals are sums over exactly
the campaigns that produced an analysis, and when no campaign yields a
usable analysis the result is a success carrying health `"No Data"`. -/
theorem C9_failures_isolate_per_campaign (resp : CampaignsResponse)
    (tr : String) :
    (resp.success = true →
      resultSuccess (analyze_account_campaigns resp tr) = true) ∧
    (∀ c : Campaign, c.id = none → analyze_single_campaign c tr = none) ∧
    (∀ c : Campaign, c.insights_response.success = false →
      analyze_single_campaign c tr = none) ∧
    (∀ c : Campaign, c.insights_response.insights = [] →
      analyze_single_campaign c tr = none) ∧
    (∀ (c : Campaign) (ld : String) (dat : RawData),
      maxKey c.insights_response.insights = some ld →
      dictLookup c.insights_response.insights ld = some dat →
      parseRawData dat = none → analyze_single_campaign c tr = none) ∧
    (∀ a : AccountAnalysis, analyze_account_campaigns resp tr = .report a →
      a.total_spend = ((collected_analyses resp tr).map (fun x => x.spend)).sum ∧
      a.total_conversions =
        ((collected_analyses resp tr).map (fun x => x.conversions)).sum) ∧
    (resp.success = true → resp.campaigns ≠ [] →
      collected_analyses resp tr = [] →
      analyze_account_campaigns resp tr = .noUsableData ∧
      resultHealth (analyze_account_campaigns resp tr) = some "No Data") := by
  refine ⟨?_, ?_, ?_, ?_, ?_, ?_, ?_⟩
  · intro hs
    unfold analyze_account_campaigns
    rw [if_neg (by simp [hs])]
    split_ifs <;> rfl
  · intro c hid
    simp [analyze_single_campaign, hid]
  · intro c hfail
    cases hid : c.id with
    | none => simp [analyze_single_campaign, hid]
    | some i => simp [analyze_single_campaign, hid, hfail]
  · intro c hempty
    cases hid : c.id with
    | none => simp [analyze_single_campaign, hid]
    | some i => simp [analyze_single_campaign, hid, hempty, maxKey]
  · intro c ld dat hmax hlook hparse
    cases hid : c.id with
    | none => simp [analyze_single_campaign, hid]
    | some i => simp [analyze_single_campaign, hid, hmax, hlook, hparse]
  · intro a ha
    unfold analyze_account_campaigns at ha
    split_ifs at ha <;> cases ha
    exact ⟨rfl, rfl⟩
  · intro hs hne hnone
    have heq : analyze_account_campaigns resp tr = .noUsableData := by
      unfold analyze_account_campaigns
      rw [if_neg (by simp [hs]), if_neg hne, if_pos hnone]
    exact ⟨heq, by rw [heq]; rfl⟩

/-! Concrete campaigns exercising each skip path, for the C9 witness. -/

/-- A campaign whose dict has no `id` key. -/
def campaignMissingId : Campaign := ⟨none, none, none, none, ⟨true, []⟩⟩

/-- A campaign whose insights fetch failed. -/
def campaignFailedFetch : Campaign :=
  ⟨some "c-fail", none, none, none, ⟨false, []⟩⟩

/-- A campaign whose insights dict is empty. -/
def campaignEmptyInsights : Campaign :=
  ⟨some "c-empty", none, none, none, ⟨true, []⟩⟩

/-- A campaign whose latest insight record has a non-numeric `spend`
(its `float()` raises and the `except` skips the campaign). -/
def campaignMalformedData : Campaign :=
  ⟨some "c-bad", none, none, some 10,
    ⟨true, [("2024-01-01",
      ⟨FieldVal.malformed, FieldVal.falsy, FieldVal.falsy, FieldVal.falsy,
        FieldVal.falsy⟩)]⟩⟩

/-- A campaigns response whose every campaign is skipped. -/
def respAllSkipped : CampaignsResponse :=
  ⟨true, [campaignMissingId, campaignFailedFetch, campaignEmptyInsights,
    campaignMalformedData]⟩

/-- Witness for C9 on `respAllSkipped`: every skip path fires, the run
succeeds, and the result is the `"No Data"` outcome. -/
theorem C9_failures_isolate_per_campaign_witness :
    resultSuccess (analyze_account_campaigns respAllSkipped "last_30d") = true ∧
    analyze_single_campaign campaignMissingId "last_30d" = none ∧
    analyze_single_campaign campaignFailedFetch "last_30d" = none ∧
    analyze_single_campaign campaignEmptyInsights "last_30d" = none ∧
    analyze_single_campaign campaignMalformedData "last_30d" = none ∧
    analyze_account_campaigns respAllSkipped "last_30d" =
      AnalyzeResult.noUsableData ∧
    resultHealth (analyze_account_campaigns respAllSkipped "last_30d") =
      some "No Data" := by
  have h := C9_failures_isolate_per_campaign respAllSkipped "last_30d"
  have hskip := h.2.2.2.2.2.2 rfl (by decide) (by decide)

  exact ⟨h.1 rfl, h.2.1 campaignMissingId rfl,
    h.2.2.1 campaignFailedFetch rfl,
    h.2.2.2.1 campaignEmptyInsights rfl,
    h.2.2.2.2.1 campaignMalformedData "2024-01-01"
      ⟨FieldVal.malformed, FieldVal.falsy, FieldVal.falsy, FieldVal.falsy,
        FieldVal.falsy⟩ rfl rfl rfl,
    hskip.1, hskip.2⟩

end MetaAds
